import Mathlib

/-!
Shallow embedding of the clueso-backend recording-processing pipeline.

The embedding follows the source files:
* `src/models/recording.model.ts` — `RecordingStatus`, `ProcessingStep`, `DOMEvent`,
  the recording document;
* `src/services/file.service.ts` — `getRecordingPaths`;
* `src/queues/recording.queue.ts` — `JobType`, the BullMQ queue with jobId-based
  deduplication, `addProcessingJob`, `addNextJob`, `addFinalProcessingJob`,
  `defaultJobOptions` (attempts = 2);
* the unified recording worker (`recordingProcessor`) — `processExtractAudio`,
  `processTranscribe`, `processAI`, `processZoom`, `processMerge`, and the
  worker-level `failed` handler;
* the recordings controller — `uploadRecording` and `processRecording`;
* `src/services/pythonAI.service.ts` — `processWithAI` error classification.

External collaborators (ffmpeg, Deepgram, the Python AI server, the filesystem)
are modelled as oracle inputs: each handler takes the collaborator outcomes as
explicit arguments and the Lean function reproduces the handler's control flow
on them.
-/

namespace Clueso

/-- `RecordingStatus` enum from `recording.model.ts`. -/
inductive RecordingStatus where
  | uploaded
  | processing
  | draftReady
  | completed
  | failed
deriving DecidableEq

/-- `ProcessingStep` enum from `recording.model.ts`. -/
inductive ProcessingStep where
  | extractingAudio
  | transcribing
  | aiProcessing
  | applyingZoomEffects
  | merging
  | completed
  | failed
deriving DecidableEq

/-- Click coordinates of a DOM event (`coordinates` field). -/
structure Coordinates where
  x : Int
  y : Int
deriving DecidableEq

/-- A captured interaction event (`DOMEvent` in `recording.model.ts`).
Only the fields the pipeline inspects are kept: the zoom stage filters on
`type` and the presence of `coordinates`. -/
structure DOMEvent where
  type : String
  timestamp : Nat
  coordinates : Option Coordinates
deriving DecidableEq

/-- The recording document (`IRecording` in `recording.model.ts`).
Optional artifact paths are `Option String`; timestamps are abstract `Nat`
instants. -/
structure RecordingDoc where
  id : String
  filePath : String
  eventsPath : String
  audioPath : Option String
  transcriptPath : Option String
  zoomedVideoPath : Option String
  voiceoverPath : Option String
  finalVideoPath : Option String
  cleanedScript : Option String
  transcript : Option String
  status : RecordingStatus
  currentStep : Option ProcessingStep
  title : Option String
  targetLanguage : String
  errorMessage : Option String
  processingStartedAt : Option Nat
  processingCompletedAt : Option Nat
deriving DecidableEq

/-- Conventional per-recording file locations (`fileService.getRecordingPaths`). -/
structure RecordingPaths where
  directory : String
  rawVideo : String
  events : String
  audio : String
  transcript : String
  voiceover : String
  zoomedVideo : String
  finalVideo : String
deriving DecidableEq

/-- `env.UPLOAD_DIR` (default `uploads`). -/
def uploadDir : String := "uploads"

/-- `fileService.getRecordingPaths(recordingId)`: the fixed file layout inside
the recording's directory. -/
def getRecordingPaths (recordingId : String) : RecordingPaths :=
  let dir := uploadDir ++ "/" ++ recordingId
  { directory := dir
    rawVideo := dir ++ "/raw.webm"
    events := dir ++ "/events.json"
    audio := dir ++ "/audio.wav"
    transcript := dir ++ "/transcript.txt"
    voiceover := dir ++ "/voiceover.wav"
    zoomedVideo := dir ++ "/zoomed.mp4"
    finalVideo := dir ++ "/final.mp4" }

/-- `JobType` enum from `recording.queue.ts`. -/
inductive JobType where
  | startProcessing
  | extractAudio
  | transcribe
  | aiProcess
  | applyZoom
  | merge
deriving DecidableEq

/-- The string value of each `JobType` enum member. -/
def JobType.value : JobType → String
  | .startProcessing => "startProcessing"
  | .extractAudio => "extractAudio"
  | .transcribe => "transcribe"
  | .aiProcess => "aiProcess"
  | .applyZoom => "applyZoom"
  | .merge => "merge"

/-- One queued BullMQ job: name, data (`recordingId`, optional
`targetLanguage`) and the explicit `jobId` used as dedup key. -/
structure QueueJob where
  name : JobType
  recordingId : String
  targetLanguage : Option String
  jobId : String
deriving DecidableEq

/-- `queue.add` with an explicit `jobId`: BullMQ ignores the call when a job
with the same id is already present (idempotent scheduling). -/
def queueAdd (q : List QueueJob) (j : QueueJob) : List QueueJob :=
  if q.any fun k => k.jobId == j.jobId then q else q ++ [j]

/-- `addProcessingJob(recordingId)`: enqueue the first pipeline stage with
dedup key `extract-audio-<recordingId>`. -/
def addProcessingJob (q : List QueueJob) (recordingId : String) : List QueueJob :=
  queueAdd q
    { name := .extractAudio
      recordingId := recordingId
      targetLanguage := none
      jobId := "extract-audio-" ++ recordingId }

/-- The `nextJobMap` successor table inside `addNextJob`. -/
def nextJobMap : JobType → Option JobType
  | .startProcessing => some .extractAudio
  | .extractAudio => some .transcribe
  | .transcribe => none
  | .aiProcess => some .applyZoom
  | .applyZoom => some .merge
  | .merge => none

/-- The dedup key `addNextJob` uses for the successor stage:
the template literal built from the next job's enum value and the recording id. -/
def stageJobId (t : JobType) (recordingId : String) : String :=
  t.value ++ "-" ++ recordingId

/-- `addNextJob(currentJobType, recordingId)`: look up the successor stage and
enqueue it under its deterministic dedup key; no-op for terminal stages. -/
def addNextJob (q : List QueueJob) (currentJobType : JobType)
    (recordingId : String) : List QueueJob :=
  match nextJobMap currentJobType with
  | some nextJob =>
      queueAdd q
        { name := nextJob
          recordingId := recordingId
          targetLanguage := none
          jobId := stageJobId nextJob recordingId }
  | none => q

/-- The dedup key `addFinalProcessingJob` uses: it appends `Date.now()`, so
distinct submissions get distinct keys. -/
def aiJobId (recordingId : String) (now : Nat) : String :=
  "ai-process-" ++ recordingId ++ "-" ++ toString now

/-- `addFinalProcessingJob(recordingId, targetLanguage)`: enqueue an
`AI_PROCESS` job whose dedup key embeds the submission timestamp. -/
def addFinalProcessingJob (q : List QueueJob) (recordingId : String)
    (targetLanguage : String) (now : Nat) : List QueueJob :=
  queueAdd q
    { name := .aiProcess
      recordingId := recordingId
      targetLanguage := some targetLanguage
      jobId := aiJobId recordingId now }

/-- Failure modes of the axios call inside `pythonAIService.processWithAI`,
as distinguished by its catch block. -/
inductive AIFailureKind where
  | connectionRefused
  | timedOut
  | badRequest (detail : String)
  | otherHttp (message : String)
deriving DecidableEq

/-- Successful response body of the Python AI server
(`AIProcessingResponse`). -/
structure AIResult where
  cleanedScript : String
  voiceoverBase64 : String
deriving DecidableEq

/-- `pythonAIService.processWithAI`: validate a successful response and map
each axios failure to its distinct `ProcessingError` message. Every failure
path throws (`Except.error`); none is marked unrecoverable. -/
def processWithAI (axiosResult : Except AIFailureKind AIResult) :
    Except String AIResult :=
  match axiosResult with
  | .ok r =>
      if r.cleanedScript == "" || r.voiceoverBase64 == "" then
        .error "Invalid response from Python AI server: missing cleanedScript or voiceoverBase64"
      else
        .ok r
  | .error .connectionRefused => .error "Python AI server is not available"
  | .error .timedOut => .error "Python AI server request timed out"
  | .error (.badRequest detail) =>
      .error ("Python AI server rejected request: " ++ detail)
  | .error (.otherHttp message) =>
      .error ("Python AI server error: " ++ message)

/-- `defaultJobOptions.attempts` on the recording queue. -/
def recordingQueueAttempts : Nat := 2

/-- BullMQ retry decision after a processor throw: the job is re-scheduled
with backoff while the attempts made so far are below the configured ceiling. -/
def willRetryAfterThrow (attemptsMade : Nat) : Bool :=
  attemptsMade < recordingQueueAttempts

/-- Whether a finished `AI_PROCESS` attempt is retried by the queue: the stage
handler rethrows every `processWithAI` error, so the decision is the plain
BullMQ attempts check; a successful call is never retried. -/
def aiJobWillRetry (axiosResult : Except AIFailureKind AIResult)
    (attemptsMade : Nat) : Bool :=
  match processWithAI axiosResult with
  | .ok _ => false
  | .error _ => willRetryAfterThrow attemptsMade

/-- What the AI stage wrote to the voiceover file: a copy of the extracted
audio, an empty placeholder, or the decoded synthesis output. -/
inductive VoiceoverWrite where
  | copiedFromAudio
  | emptyPlaceholder
  | savedBase64 (b64 : String)
deriving DecidableEq

/-- Observable result of one stage-handler execution: the record and queue
afterwards, the thrown error message if any, whether the synthesis
collaborator was called, what was written to the voiceover file, and the
inputs handed to the mux collaborator. -/
structure StageResult where
  doc : RecordingDoc
  queue : List QueueJob
  error : Option String
  calledSynthesis : Bool
  voiceoverWrite : Option VoiceoverWrite
  muxVideoInput : Option String
  muxAudioInput : Option String
deriving DecidableEq

/-- JS `error.message || "Unknown error occurred during processing"` in the
worker `failed` listener. -/
def failedErrorMessage (e : String) : String :=
  if e == "" then "Unknown error occurred during processing" else e

/-- The worker-level `failed` listener: mark the recording FAILED with the
error message. -/
def applyFailed (doc : RecordingDoc) (e : String) : RecordingDoc :=
  { doc with
    status := .failed
    currentStep := some .failed
    errorMessage := some (failedErrorMessage e) }

/-- JS `value || fallback` on an optional string field: `undefined` and the
empty string are both falsy. -/
def jsOrString (v : Option String) (fallback : String) : String :=
  match v with
  | some s => if s == "" then fallback else s
  | none => fallback

/-- JS `!transcript || transcript.trim().length === 0` on the already
defaulted transcript string. -/
def transcriptIsEmpty (t : String) : Bool :=
  t == "" || t.trim.length == 0

/-- The click filter of the zoom stage:
`e.type === "click" && e.coordinates`. -/
def isClickWithCoordinates (e : DOMEvent) : Bool :=
  e.type == "click" && e.coordinates.isSome

/-- `processExtractAudio(recordingId)`: mark PROCESSING / EXTRACTING_AUDIO,
run the extraction collaborator, record the audio path and enqueue
TRANSCRIBE; a collaborator throw reaches the `failed` listener. -/
def processExtractAudio (doc : RecordingDoc) (q : List QueueJob) (now : Nat)
    (extractResult : Except String Unit) : StageResult :=
  let doc1 := { doc with
    status := RecordingStatus.processing
    currentStep := some ProcessingStep.extractingAudio
    processingStartedAt := some now }
  let paths := getRecordingPaths doc.id
  match extractResult with
  | .error e =>
      { doc := applyFailed doc1 e, queue := q, error := some e
        calledSynthesis := false, voiceoverWrite := none
        muxVideoInput := none, muxAudioInput := none }
  | .ok _ =>
      let doc2 := { doc1 with audioPath := some paths.audio }
      { doc := doc2, queue := addNextJob q .extractAudio doc.id, error := none
        calledSynthesis := false, voiceoverWrite := none
        muxVideoInput := none, muxAudioInput := none }

/-- `processTranscribe(recordingId)`: mark TRANSCRIBING, run the
transcription collaborator, store transcript and transcript path, then set
DRAFT_READY / COMPLETED; no successor job is enqueued — the pipeline
pauses at the draft stage. -/
def processTranscribe (doc : RecordingDoc) (q : List QueueJob)
    (transcribeResult : Except String String) : StageResult :=
  let doc1 := { doc with currentStep := some ProcessingStep.transcribing }
  let paths := getRecordingPaths doc.id
  match transcribeResult with
  | .error e =>
      { doc := applyFailed doc1 e, queue := q, error := some e
        calledSynthesis := false, voiceoverWrite := none
        muxVideoInput := none, muxAudioInput := none }
  | .ok transcript =>
      let doc2 := { doc1 with
        transcript := some transcript
        transcriptPath := some paths.transcript }
      let doc3 := { doc2 with
        status := RecordingStatus.draftReady
        currentStep := some ProcessingStep.completed }
      { doc := doc3, queue := q, error := none
        calledSynthesis := false, voiceoverWrite := none
        muxVideoInput := none, muxAudioInput := none }

/-- `processAI(recordingId, targetLanguage)`: mark AI_PROCESSING, read the
events file, and either take the empty-transcript fallback (no synthesis
call, sentinel script, voiceover copied from the audio or created empty)
or call the synthesis collaborator; both success paths enqueue APPLY_ZOOM. -/
def processAI (doc : RecordingDoc) (q : List QueueJob)
    (eventsRead : Except String (List DOMEvent)) (audioExists : Bool)
    (axiosResult : Except AIFailureKind AIResult) : StageResult :=
  let doc1 := { doc with currentStep := some ProcessingStep.aiProcessing }
  let paths := getRecordingPaths doc.id
  let transcript := doc.transcript.getD ""
  match eventsRead with
  | .error e =>
      { doc := applyFailed doc1 e, queue := q, error := some e
        calledSynthesis := false, voiceoverWrite := none
        muxVideoInput := none, muxAudioInput := none }
  | .ok _ =>
      if transcriptIsEmpty transcript then
        let write := if audioExists then VoiceoverWrite.copiedFromAudio
                     else VoiceoverWrite.emptyPlaceholder
        let doc2 := { doc1 with
          cleanedScript := some "[No transcript available]"
          voiceoverPath := some paths.voiceover }
        { doc := doc2, queue := addNextJob q .aiProcess doc.id, error := none
          calledSynthesis := false, voiceoverWrite := some write
          muxVideoInput := none, muxAudioInput := none }
      else
        match processWithAI axiosResult with
        | .error e =>
            { doc := applyFailed doc1 e, queue := q, error := some e
              calledSynthesis := true, voiceoverWrite := none
              muxVideoInput := none, muxAudioInput := none }
        | .ok r =>
            let doc2 := { doc1 with
              cleanedScript := some r.cleanedScript
              voiceoverPath := some paths.voiceover }
            { doc := doc2, queue := addNextJob q .aiProcess doc.id
              error := none, calledSynthesis := true
              voiceoverWrite := some (VoiceoverWrite.savedBase64 r.voiceoverBase64)
              muxVideoInput := none, muxAudioInput := none }

/-- `processZoom(recordingId)`: mark APPLYING_ZOOM_EFFECTS, read the events
file (falling back to an empty list on read failure), filter to click events
with coordinates; render zooms when clicks exist, falling back to the raw
video on render failure; without clicks use the raw video directly; always
enqueue MERGE and never throw.

The try/catch decision of the zoom stage, factored out: with click events the
rendered path is used on success and the raw video on render failure; with no
click events the raw video is used directly. -/
def zoomChosenPath (paths : RecordingPaths) (clickEvents : List DOMEvent)
    (zoomRender : Except String Unit) : String :=
  if clickEvents.length > 0 then
    match zoomRender with
    | .ok _ => paths.zoomedVideo
    | .error _ => paths.rawVideo
  else
    paths.rawVideo

/-- The zoom stage body continued: the chosen path is written to
`zoomedVideoPath` and MERGE is enqueued in every case. -/
def processZoom (doc : RecordingDoc) (q : List QueueJob)
    (eventsRead : Except String (List DOMEvent))
    (zoomRender : Except String Unit) : StageResult :=
  let doc1 := { doc with currentStep := some ProcessingStep.applyingZoomEffects }
  let paths := getRecordingPaths doc.id
  let domEvents := match eventsRead with
    | .ok evs => evs
    | .error _ => ([] : List DOMEvent)
  let clickEvents := domEvents.filter isClickWithCoordinates
  let doc2 := { doc1 with
    zoomedVideoPath := some (zoomChosenPath paths clickEvents zoomRender) }
  { doc := doc2, queue := addNextJob q .applyZoom doc.id, error := none
    calledSynthesis := false, voiceoverWrite := none
    muxVideoInput := none, muxAudioInput := none }

/-- `processMerge(recordingId)`: mark MERGING, re-read the record, hand the
currently recorded `zoomedVideoPath` (or the raw video when unset) and the
voiceover path to the mux collaborator, and on success mark COMPLETED with
the final video path and completion timestamp. -/
def processMerge (doc : RecordingDoc) (q : List QueueJob) (now : Nat)
    (mergeResult : Except String Unit) : StageResult :=
  let doc1 := { doc with currentStep := some ProcessingStep.merging }
  let paths := getRecordingPaths doc.id
  let videoPath := jsOrString doc.zoomedVideoPath paths.rawVideo
  match mergeResult with
  | .error e =>
      { doc := applyFailed doc1 e, queue := q, error := some e
        calledSynthesis := false, voiceoverWrite := none
        muxVideoInput := some videoPath, muxAudioInput := some paths.voiceover }
  | .ok _ =>
      let doc2 := { doc1 with
        status := RecordingStatus.completed
        currentStep := some ProcessingStep.completed
        finalVideoPath := some paths.finalVideo
        processingCompletedAt := some now }
      { doc := doc2, queue := q, error := none
        calledSynthesis := false, voiceoverWrite := none
        muxVideoInput := some videoPath, muxAudioInput := some paths.voiceover }

/-- Collaborator outcomes available to one job execution. -/
structure Oracle where
  extractResult : Except String Unit
  transcribeResult : Except String String
  eventsRead : Except String (List DOMEvent)
  audioExists : Bool
  axiosResult : Except AIFailureKind AIResult
  zoomRender : Except String Unit
  mergeResult : Except String Unit

/-- The unified worker's `switch (job.name)` dispatch. The `default` branch
returns a failure object without throwing or touching the record. -/
def runJob (doc : RecordingDoc) (q : List QueueJob) (j : QueueJob)
    (o : Oracle) (now : Nat) : StageResult :=
  match j.name with
  | .extractAudio => processExtractAudio doc q now o.extractResult
  | .transcribe => processTranscribe doc q o.transcribeResult
  | .aiProcess => processAI doc q o.eventsRead o.audioExists o.axiosResult
  | .applyZoom => processZoom doc q o.eventsRead o.zoomRender
  | .merge => processMerge doc q now o.mergeResult
  | .startProcessing =>
      { doc := doc, queue := q, error := none
        calledSynthesis := false, voiceoverWrite := none
        muxVideoInput := none, muxAudioInput := none }

/-- One recording's pipeline state: its document plus the pending jobs. -/
structure PipelineState where
  doc : RecordingDoc
  queue : List QueueJob
deriving DecidableEq

/-- Execute a pending job: it is taken off the queue and its handler runs
against the current record and the remaining queue. -/
def runJobState (s : PipelineState) (j : QueueJob) (o : Oracle)
    (now : Nat) : PipelineState :=
  let r := runJob s.doc (s.queue.erase j) j o now
  { doc := r.doc, queue := r.queue }

/-- The record-document mutation of the `processRecording` controller:
status back to PROCESSING, step reset to AI_PROCESSING, requested language
(default `en`) stored, previous error cleared. -/
def processRecordingDoc (doc : RecordingDoc) (language : Option String) :
    RecordingDoc :=
  { doc with
    status := RecordingStatus.processing
    currentStep := some ProcessingStep.aiProcessing
    targetLanguage := language.getD "en"
    errorMessage := none }

/-- `POST /api/recordings/:id/process`: mutate the record (the status check
only logs a warning) and enqueue a fresh `AI_PROCESS` job carrying the
requested language under a timestamped dedup key. -/
def requestState (s : PipelineState) (language : Option String)
    (now : Nat) : PipelineState :=
  { doc := processRecordingDoc s.doc language
    queue := addFinalProcessingJob s.queue s.doc.id (language.getD "en") now }

/-- The record created by `uploadRecording`: UPLOADED, raw video and events
paths set, schema defaults elsewhere. -/
def uploadDoc (recordingId : String) (title : Option String) : RecordingDoc :=
  let paths := getRecordingPaths recordingId
  { id := recordingId
    filePath := paths.rawVideo
    eventsPath := paths.events
    audioPath := none
    transcriptPath := none
    zoomedVideoPath := none
    voiceoverPath := none
    finalVideoPath := none
    cleanedScript := none
    transcript := none
    status := RecordingStatus.uploaded
    currentStep := none
    title := some (title.getD ("Recording " ++ recordingId.take 8))
    targetLanguage := "en"
    errorMessage := none
    processingStartedAt := none
    processingCompletedAt := none }

/-- Pipeline state right after `uploadRecording`: fresh record plus the
EXTRACT_AUDIO job enqueued by `addProcessingJob`. -/
def uploadState (recordingId : String) (title : Option String) :
    PipelineState :=
  { doc := uploadDoc recordingId title
    queue := addProcessingJob [] recordingId }

/-- One step of the pipeline: either a worker executes a pending job, or a
client issues an explicit process request. -/
inductive Step : PipelineState → PipelineState → Prop where
  | run (s : PipelineState) (j : QueueJob) (o : Oracle) (now : Nat)
      (hj : j ∈ s.queue) : Step s (runJobState s j o now)
  | request (s : PipelineState) (language : Option String) (now : Nat) :
      Step s (requestState s language now)

/-- States reachable from an upload through worker executions and process
requests. -/
inductive Reachable : PipelineState → Prop where
  | init (recordingId : String) (title : Option String) :
      Reachable (uploadState recordingId title)
  | step {s t : PipelineState} : Reachable s → Step s t → Reachable t

/-- The status/artifact invariant that actually holds on reachable states,
strengthened with the queue conditions that make it inductive. -/
def Inv (s : PipelineState) : Prop :=
  (s.doc.status = RecordingStatus.failed → s.doc.errorMessage.isSome) ∧
  (s.doc.status = RecordingStatus.completed →
    s.doc.finalVideoPath.isSome ∧ s.doc.voiceoverPath.isSome ∧
      s.doc.zoomedVideoPath.isSome) ∧
  (∀ j ∈ s.queue, j.name = JobType.merge →
    s.doc.voiceoverPath.isSome ∧ s.doc.zoomedVideoPath.isSome) ∧
  (∀ j ∈ s.queue, j.name = JobType.applyZoom → s.doc.voiceoverPath.isSome)

/-- An oracle for a run in which every collaborator succeeds, the recording
is silent (empty transcription, no extracted audio on disk) and the events
file holds an empty array. -/
def oEmpty : Oracle :=
  { extractResult := .ok ()
    transcribeResult := .ok ""
    eventsRead := .ok []
    audioExists := false
    axiosResult := .error .connectionRefused
    zoomRender := .ok ()
    mergeResult := .ok () }

/-- The `AI_PROCESS` job `processRecording` enqueues for recording `r1` at
timestamp 5. -/
def aiJobC : QueueJob :=
  { name := .aiProcess, recordingId := "r1", targetLanguage := some "en"
    jobId := "ai-process-r1-5" }

/-- The `APPLY_ZOOM` job the AI stage enqueues for recording `r1`. -/
def zoomJobC : QueueJob :=
  { name := .applyZoom, recordingId := "r1", targetLanguage := none
    jobId := "applyZoom-r1" }

/-- The `MERGE` job the zoom stage enqueues for recording `r1`. -/
def mergeJobC : QueueJob :=
  { name := .merge, recordingId := "r1", targetLanguage := none
    jobId := "merge-r1" }

/-- Recording `r1` freshly uploaded. -/
def cexS0 : PipelineState := uploadState "r1" none

/-- An explicit process request issued on `r1` while it is still UPLOADED. -/
def cexS1 : PipelineState := requestState cexS0 none 5

/-- The enqueued `AI_PROCESS` job runs: the transcript is absent, so the
empty-transcript fallback fires. -/
def cexS2 : PipelineState := runJobState cexS1 aiJobC oEmpty 6

/-- The `APPLY_ZOOM` job runs on an empty events array. -/
def cexS3 : PipelineState := runJobState cexS2 zoomJobC oEmpty 7

/-- The `MERGE` job runs and completes the pipeline: the recording ends
COMPLETED although `audioPath` and `transcriptPath` were never set. -/
def cexS4 : PipelineState := runJobState cexS3 mergeJobC oEmpty 8

/-- The fields owned by the upload/extract/transcribe prefix of the pipeline
(plus metadata), which re-processing must not touch. -/
def upstreamFields (d : RecordingDoc) :
    Option String × Option String × Option String × String × String ×
      Option String :=
  (d.transcriptPath, d.audioPath, d.transcript, d.filePath, d.eventsPath,
    d.title)

/-- One full tail re-processing run: the explicit process request followed by
the `AI_PROCESS`, `APPLY_ZOOM` and `MERGE` handlers, under arbitrary
collaborator outcomes. -/
def reprocessRun (s : PipelineState) (language : Option String)
    (n1 : Nat) (o : Oracle) (now : Nat) : RecordingDoc :=
  let s1 := requestState s language n1
  let r2 := processAI s1.doc s1.queue o.eventsRead o.audioExists o.axiosResult
  let r3 := processZoom r2.doc r2.queue o.eventsRead o.zoomRender
  let r4 := processMerge r3.doc r3.queue now o.mergeResult
  r4.doc

/-- A pointer-click interaction event carrying coordinates. -/
def clickEventC : DOMEvent :=
  { type := "click", timestamp := 1000, coordinates := some { x := 10, y := 20 } }

/-- A recording paused at the draft stage. -/
def draftDocC : RecordingDoc :=
  { uploadDoc "r1" none with status := RecordingStatus.draftReady }

/-- Membership after a deduplicating add: the job was already queued or is
the one just added. -/
theorem mem_queueAdd {q : List QueueJob} {j k : QueueJob}
    (h : k ∈ queueAdd q j) : k ∈ q ∨ k = j := by
  unfold queueAdd at h
  split at h
  · exact Or.inl h
  · rcases List.mem_append.1 h with h | h
    · exact Or.inl h
    · exact Or.inr (List.mem_singleton.1 h)

/-- Taking a job off the queue only removes jobs. -/
theorem mem_erase_sub {q : List QueueJob} {j k : QueueJob}
    (h : k ∈ q.erase j) : k ∈ q :=
  List.mem_of_mem_erase h

/-- Re-adding a job under the same dedup key is a no-op. -/
theorem queueAdd_idem (q : List QueueJob) (j : QueueJob) :
    queueAdd (queueAdd q j) j = queueAdd q j := by
  unfold queueAdd
  split
  · rfl
  · have : ((q ++ [j]).any fun k => k.jobId == j.jobId) = true := by
      simp [List.any_append]
    rw [if_pos this]

/-- When no pending job carries the new dedup key, the add appends the job. -/
theorem queueAdd_of_forall_ne (q : List QueueJob) (j : QueueJob)
    (h : ∀ k ∈ q, k.jobId ≠ j.jobId) : queueAdd q j = q ++ [j] := by
  unfold queueAdd
  have : (q.any fun k => k.jobId == j.jobId) = false := by
    simp only [List.any_eq_false]
    intro k hk
    simpa using h k hk
  rw [this]
  simp

/-- The strengthened invariant holds right after an upload. -/
theorem inv_init (recordingId : String) (title : Option String) :
    Inv (uploadState recordingId title) := by
  refine ⟨?_, ?_, ?_, ?_⟩
  · intro hx
    simp [uploadState, uploadDoc] at hx
  · intro hx
    simp [uploadState, uploadDoc] at hx
  · intro k hk hkn
    simp [uploadState, addProcessingJob, queueAdd] at hk
    subst hk
    simp at hkn
  · intro k hk hkn
    simp [uploadState, addProcessingJob, queueAdd] at hk
    subst hk
    simp at hkn

/-- Every pipeline step — any stage handler under any collaborator outcome,
and the explicit process request — preserves the strengthened invariant. -/
theorem inv_step {s t : PipelineState} (hs : Inv s) (h : Step s t) : Inv t := by
  obtain ⟨h1, h2, h3, h4⟩ := hs
  cases h with
  | request language now =>
      refine ⟨?_, ?_, ?_, ?_⟩
      · intro hx
        simp [requestState, processRecordingDoc] at hx
      · intro hx
        simp [requestState, processRecordingDoc] at hx
      · intro k hk hkn
        rcases mem_queueAdd (by simpa [requestState, addFinalProcessingJob] using hk)
          with hk2 | rfl
        · have := h3 k hk2 hkn
          simpa [requestState, processRecordingDoc] using this
        · simp at hkn
      · intro k hk hkn
        rcases mem_queueAdd (by simpa [requestState, addFinalProcessingJob] using hk)
          with hk2 | rfl
        · have := h4 k hk2 hkn
          simpa [requestState, processRecordingDoc] using this
        · simp at hkn
  | run j o now hj =>
      cases hnm : j.name with
      | startProcessing =>
          refine ⟨?_, ?_, ?_, ?_⟩ <;>
            simp only [runJobState, runJob, hnm]
          · exact h1
          · exact h2
          · intro k hk hkn
            exact h3 k (mem_erase_sub hk) hkn
          · intro k hk hkn
            exact h4 k (mem_erase_sub hk) hkn
      | extractAudio =>
          cases hex : o.extractResult with
          | error e =>
              refine ⟨?_, ?_, ?_, ?_⟩ <;>
                simp only [runJobState, runJob, hnm, processExtractAudio, hex]
              · intro hx
                simp [applyFailed]
              · intro hx
                simp [applyFailed] at hx
              · intro k hk hkn
                have := h3 k (mem_erase_sub hk) hkn
                simpa [applyFailed] using this
              · intro k hk hkn
                have := h4 k (mem_erase_sub hk) hkn
                simpa [applyFailed] using this
          | ok u =>
              refine ⟨?_, ?_, ?_, ?_⟩ <;>
                simp only [runJobState, runJob, hnm, processExtractAudio, hex]
              · intro hx
                simp at hx
              · intro hx
                simp at hx
              · intro k hk hkn
                rcases mem_queueAdd (by simpa [addNextJob, nextJobMap] using hk)
                  with hk2 | rfl
                · exact h3 k (mem_erase_sub hk2) hkn
                · simp at hkn
              · intro k hk hkn
                rcases mem_queueAdd (by simpa [addNextJob, nextJobMap] using hk)
                  with hk2 | rfl
                · exact h4 k (mem_erase_sub hk2) hkn
                · simp at hkn
      | transcribe =>
          cases htr : o.transcribeResult with
          | error e =>
              refine ⟨?_, ?_, ?_, ?_⟩ <;>
                simp only [runJobState, runJob, hnm, processTranscribe, htr]
              · intro hx
                simp [applyFailed]
              · intro hx
                simp [applyFailed] at hx
              · intro k hk hkn
                have := h3 k (mem_erase_sub hk) hkn
                simpa [applyFailed] using this
              · intro k hk hkn
                have := h4 k (mem_erase_sub hk) hkn
                simpa [applyFailed] using this
          | ok tr =>
              refine ⟨?_, ?_, ?_, ?_⟩ <;>
                simp only [runJobState, runJob, hnm, processTranscribe, htr]
              · intro hx
                simp at hx
              · intro hx
                simp at hx
              · intro k hk hkn
                exact h3 k (mem_erase_sub hk) hkn
              · intro k hk hkn
                exact h4 k (mem_erase_sub hk) hkn
      | aiProcess =>
          cases hev : o.eventsRead with
          | error e =>
              refine ⟨?_, ?_, ?_, ?_⟩ <;>
                simp only [runJobState, runJob, hnm, processAI, hev]
              · intro hx
                simp [applyFailed]
              · intro hx
                simp [applyFailed] at hx
              · intro k hk hkn
                have := h3 k (mem_erase_sub hk) hkn
                simpa [applyFailed] using this
              · intro k hk hkn
                have := h4 k (mem_erase_sub hk) hkn
                simpa [applyFailed] using this
          | ok evs =>
              by_cases hemp : transcriptIsEmpty (s.doc.transcript.getD "") = true
              · refine ⟨?_, ?_, ?_, ?_⟩ <;>
                  simp only [runJobState, runJob, hnm, processAI, hev, hemp, if_pos]
                · intro hx
                  exact h1 hx
                · intro hx
                  exact ⟨(h2 hx).1, by simp, (h2 hx).2.2⟩
                · intro k hk hkn
                  rcases mem_queueAdd (by simpa [addNextJob, nextJobMap] using hk)
                    with hk2 | rfl
                  · exact ⟨by simp, (h3 k (mem_erase_sub hk2) hkn).2⟩
                  · simp at hkn
                · intro k hk hkn
                  rcases mem_queueAdd (by simpa [addNextJob, nextJobMap] using hk)
                    with hk2 | rfl
                  · simp
                  · simp
              · rw [Bool.not_eq_true] at hemp
                cases hax : processWithAI o.axiosResult with
                | error e =>
                    refine ⟨?_, ?_, ?_, ?_⟩ <;>
                      simp only [runJobState, runJob, hnm, processAI, hev, hemp,
                        Bool.false_eq_true, if_false, hax]
                    · intro hx
                      simp [applyFailed]
                    · intro hx
                      simp [applyFailed] at hx
                    · intro k hk hkn
                      have := h3 k (mem_erase_sub hk) hkn
                      simpa [applyFailed] using this
                    · intro k hk hkn
                      have := h4 k (mem_erase_sub hk) hkn
                      simpa [applyFailed] using this
                | ok r =>
                    refine ⟨?_, ?_, ?_, ?_⟩ <;>
                      simp only [runJobState, runJob, hnm, processAI, hev, hemp,
                        Bool.false_eq_true, if_false, hax]
                    · intro hx
                      exact h1 hx
                    · intro hx
                      exact ⟨(h2 hx).1, by simp, (h2 hx).2.2⟩
                    · intro k hk hkn
                      rcases mem_queueAdd (by simpa [addNextJob, nextJobMap] using hk)
                        with hk2 | rfl
                      · exact ⟨by simp, (h3 k (mem_erase_sub hk2) hkn).2⟩
                      · simp at hkn
                    · intro k hk hkn
                      rcases mem_queueAdd (by simpa [addNextJob, nextJobMap] using hk)
                        with hk2 | rfl
                      · simp
                      · simp
      | applyZoom =>
          refine ⟨?_, ?_, ?_, ?_⟩ <;>
            simp only [runJobState, runJob, hnm, processZoom]
          · intro hx
            exact h1 hx
          · intro hx
            exact ⟨(h2 hx).1, (h2 hx).2.1, by simp⟩
          · intro k hk hkn
            rcases mem_queueAdd (by simpa [addNextJob, nextJobMap] using hk)
              with hk2 | rfl
            · exact ⟨(h3 k (mem_erase_sub hk2) hkn).1, by simp⟩
            · exact ⟨h4 j hj hnm, by simp⟩
          · intro k hk hkn
            rcases mem_queueAdd (by simpa [addNextJob, nextJobMap] using hk)
              with hk2 | rfl
            · exact h4 k (mem_erase_sub hk2) hkn
            · simp at hkn
      | merge =>
          cases hmg : o.mergeResult with
          | error e =>
              refine ⟨?_, ?_, ?_, ?_⟩ <;>
                simp only [runJobState, runJob, hnm, processMerge, hmg]
              · intro hx
                simp [applyFailed]
              · intro hx
                simp [applyFailed] at hx
              · intro k hk hkn
                have := h3 k (mem_erase_sub hk) hkn
                simpa [applyFailed] using this
              · intro k hk hkn
                have := h4 k (mem_erase_sub hk) hkn
                simpa [applyFailed] using this
          | ok u =>
              refine ⟨?_, ?_, ?_, ?_⟩ <;>
                simp only [runJobState, runJob, hnm, processMerge, hmg]
              · intro hx
                simp at hx
              · intro hx
                exact ⟨by simp, (h3 j hj hnm).1, (h3 j hj hnm).2⟩
              · intro k hk hkn
                exact h3 k (mem_erase_sub hk) hkn
              · intro k hk hkn
                exact h4 k (mem_erase_sub hk) hkn

/-- The strengthened invariant holds at every reachable state. -/
theorem inv_of_reachable {s : PipelineState} (h : Reachable s) : Inv s := by
  induction h with
  | init recordingId title => exact inv_init recordingId title
  | step hr hstep ih => exact inv_step ih hstep

/-- The state reached by uploading `r1`, immediately issuing a process
request, and running the enqueued AI, zoom and merge jobs to completion. -/
theorem reachable_cexS4 : Reachable cexS4 :=
  Reachable.step
    (Reachable.step
      (Reachable.step
        (Reachable.step (Reachable.init "r1" none)
          (Step.request cexS0 none 5))
        (Step.run cexS1 aiJobC oEmpty 6 (by decide)))
      (Step.run cexS2 zoomJobC oEmpty 7 (by decide)))
    (Step.run cexS3 mergeJobC oEmpty 8 (by decide))

/-- The process-request mutation never touches the upstream fields. -/
theorem upstream_processRecordingDoc (doc : RecordingDoc)
    (language : Option String) :
    upstreamFields (processRecordingDoc doc language) = upstreamFields doc :=
  rfl

/-- The AI stage never touches the upstream fields, whatever the
collaborator outcomes. -/
theorem upstream_processAI (doc : RecordingDoc) (q : List QueueJob)
    (er : Except String (List DOMEvent)) (audioExists : Bool)
    (ax : Except AIFailureKind AIResult) :
    upstreamFields (processAI doc q er audioExists ax).doc =
      upstreamFields doc := by
  cases er with
  | error e => rfl
  | ok evs =>
      by_cases hemp : transcriptIsEmpty (doc.transcript.getD "") = true
      · simp [processAI, hemp, upstreamFields]
      · rw [Bool.not_eq_true] at hemp
        cases hax : processWithAI ax with
        | error e => simp [processAI, hemp, hax, upstreamFields, applyFailed]
        | ok r => simp [processAI, hemp, hax, upstreamFields]

/-- The zoom stage never touches the upstream fields. -/
theorem upstream_processZoom (doc : RecordingDoc) (q : List QueueJob)
    (er : Except String (List DOMEvent)) (zr : Except String Unit) :
    upstreamFields (processZoom doc q er zr).doc = upstreamFields doc := by
  rfl

/-- The merge stage never touches the upstream fields. -/
theorem upstream_processMerge (doc : RecordingDoc) (q : List QueueJob)
    (now : Nat) (mr : Except String Unit) :
    upstreamFields (processMerge doc q now mr).doc = upstreamFields doc := by
  cases mr with
  | error e => rfl
  | ok u => rfl

/-- C1, counterexample: the claimed biconditional fails on a reachable state.
Uploading a recording and immediately issuing an explicit process request
drives the tail of the pipeline to COMPLETED while `audioPath` and
`transcriptPath` were never set, so COMPLETED does not imply that every
upstream artifact path is set. -/
theorem completed_reachable_without_upstream_paths :
    ¬ ∀ s : PipelineState, Reachable s →
      (s.doc.status = RecordingStatus.completed ↔
        (s.doc.finalVideoPath.isSome ∧ s.doc.audioPath.isSome ∧
         s.doc.transcriptPath.isSome ∧ s.doc.voiceoverPath.isSome ∧
         s.doc.zoomedVideoPath.isSome)) := by
  intro hall
  have hx := hall cexS4 reachable_cexS4
  revert hx
  decide

/-- C1, amended: at every reachable state, FAILED implies `errorMessage` is
set, and COMPLETED implies `finalVideoPath`, `voiceoverPath` and
`zoomedVideoPath` are set; COMPLETED does not guarantee `audioPath` or
`transcriptPath`, and the converse implication does not hold. -/
theorem reachable_status_artifact_invariant (s : PipelineState)
    (h : Reachable s) :
    (s.doc.status = RecordingStatus.failed → s.doc.errorMessage.isSome) ∧
    (s.doc.status = RecordingStatus.completed →
      s.doc.finalVideoPath.isSome ∧ s.doc.voiceoverPath.isSome ∧
        s.doc.zoomedVideoPath.isSome) := by
  obtain ⟨h1, h2, _, _⟩ := inv_of_reachable h
  exact ⟨h1, h2⟩

/-- C1, witness: the amended invariant instantiated at the concrete reachable
COMPLETED state of the counterexample run. -/
theorem reachable_status_artifact_invariant_witness :
    Reachable cexS4 ∧
    ((cexS4.doc.status = RecordingStatus.failed →
        cexS4.doc.errorMessage.isSome) ∧
     (cexS4.doc.status = RecordingStatus.completed →
        cexS4.doc.finalVideoPath.isSome ∧ cexS4.doc.voiceoverPath.isSome ∧
          cexS4.doc.zoomedVideoPath.isSome)) :=
  ⟨reachable_cexS4, reachable_status_artifact_invariant cexS4 reachable_cexS4⟩

/-- C2: a successful TRANSCRIBE handler — for any transcript the collaborator
returns, the empty string included — sets status DRAFT_READY and step
COMPLETED, stores the transcript, enqueues no successor job, and never
throws, so the recording can never end FAILED on this path. -/
theorem transcribe_success_pauses_at_draft_ready (doc : RecordingDoc)
    (q : List QueueJob) (t : String) :
    (processTranscribe doc q (.ok t)).doc.status = RecordingStatus.draftReady ∧
    (processTranscribe doc q (.ok t)).doc.currentStep =
      some ProcessingStep.completed ∧
    (processTranscribe doc q (.ok t)).queue = q ∧
    (processTranscribe doc q (.ok t)).error = none ∧
    (processTranscribe doc q (.ok t)).doc.status ≠ RecordingStatus.failed ∧
    (processTranscribe doc q (.ok t)).doc.transcript = some t := by
  simp [processTranscribe]

/-- C3: on an empty (absent or whitespace-only) transcript the AI stage never
calls the synthesis collaborator — under any events-read outcome — and, when
the events file reads successfully, sets the sentinel cleaned script, points
`voiceoverPath` at the voiceover file written as a copy of the extracted
audio (or created empty without audio), and enqueues the APPLY_ZOOM job. -/
theorem ai_empty_transcript_skips_synthesis (doc : RecordingDoc)
    (q : List QueueJob) (evs : List DOMEvent) (audioExists : Bool)
    (axiosResult : Except AIFailureKind AIResult)
    (er : Except String (List DOMEvent))
    (hT : transcriptIsEmpty (doc.transcript.getD "") = true) :
    (processAI doc q (.ok evs) audioExists axiosResult).calledSynthesis =
      false ∧
    (processAI doc q (.ok evs) audioExists axiosResult).doc.cleanedScript =
      some "[No transcript available]" ∧
    (processAI doc q (.ok evs) audioExists axiosResult).doc.voiceoverPath =
      some (getRecordingPaths doc.id).voiceover ∧
    (processAI doc q (.ok evs) audioExists axiosResult).voiceoverWrite =
      some (if audioExists then VoiceoverWrite.copiedFromAudio
            else VoiceoverWrite.emptyPlaceholder) ∧
    (processAI doc q (.ok evs) audioExists axiosResult).error = none ∧
    (processAI doc q (.ok evs) audioExists axiosResult).queue =
      queueAdd q
        { name := JobType.applyZoom
          recordingId := doc.id
          targetLanguage := none
          jobId := stageJobId JobType.applyZoom doc.id } ∧
    (processAI doc q er audioExists axiosResult).calledSynthesis = false := by
  refine ⟨?_, ?_, ?_, ?_, ?_, ?_, ?_⟩ <;>
    simp [processAI, hT, addNextJob, nextJobMap]
  cases er with
  | error e => simp [processAI]
  | ok evs2 => simp [processAI, hT]

/-- C3, witness: the fallback instantiated on a freshly uploaded recording
with no transcript, no audio on disk, an empty events array, and an AI
collaborator that would fail if called. -/
theorem ai_empty_transcript_skips_synthesis_witness :
    transcriptIsEmpty ((uploadDoc "r1" none).transcript.getD "") = true ∧
    ((processAI (uploadDoc "r1" none) [] (.ok []) false
        (.error .connectionRefused)).calledSynthesis = false ∧
     (processAI (uploadDoc "r1" none) [] (.ok []) false
        (.error .connectionRefused)).doc.cleanedScript =
       some "[No transcript available]" ∧
     (processAI (uploadDoc "r1" none) [] (.ok []) false
        (.error .connectionRefused)).doc.voiceoverPath =
       some (getRecordingPaths (uploadDoc "r1" none).id).voiceover ∧
     (processAI (uploadDoc "r1" none) [] (.ok []) false
        (.error .connectionRefused)).voiceoverWrite =
       some (if false then VoiceoverWrite.copiedFromAudio
             else VoiceoverWrite.emptyPlaceholder) ∧
     (processAI (uploadDoc "r1" none) [] (.ok []) false
        (.error .connectionRefused)).error = none ∧
     (processAI (uploadDoc "r1" none) [] (.ok []) false
        (.error .connectionRefused)).queue =
       queueAdd []
         { name := JobType.applyZoom
           recordingId := (uploadDoc "r1" none).id
           targetLanguage := none
           jobId := stageJobId JobType.applyZoom (uploadDoc "r1" none).id } ∧
     (processAI (uploadDoc "r1" none) [] (.error "events read failed") false
        (.error .connectionRefused)).calledSynthesis = false) :=
  ⟨by decide,
    ai_empty_transcript_skips_synthesis (uploadDoc "r1" none) [] [] false
      (.error .connectionRefused) (.error "events read failed") (by decide)⟩

/-- C4: without click events the zoom stage records the raw video path; with
click events and a failing zoom-effects collaborator it absorbs the error
(no throw, status untouched), records the raw video path, still enqueues
MERGE, and a successful merge then completes the pipeline. -/
theorem zoom_render_failure_falls_back_to_raw_video (doc : RecordingDoc)
    (q : List QueueJob) (evs evs0 : List DOMEvent) (e : String) (now : Nat)
    (hcl : evs.filter isClickWithCoordinates ≠ [])
    (hcl0 : evs0.filter isClickWithCoordinates = []) :
    (processZoom doc q (.ok evs0) (.ok ())).doc.zoomedVideoPath =
      some (getRecordingPaths doc.id).rawVideo ∧
    (processZoom doc q (.ok evs) (.error e)).error = none ∧
    (processZoom doc q (.ok evs) (.error e)).doc.status = doc.status ∧
    (processZoom doc q (.ok evs) (.error e)).doc.zoomedVideoPath =
      some (getRecordingPaths doc.id).rawVideo ∧
    (processZoom doc q (.ok evs) (.error e)).queue =
      queueAdd q
        { name := JobType.merge
          recordingId := doc.id
          targetLanguage := none
          jobId := stageJobId JobType.merge doc.id } ∧
    (processMerge (processZoom doc q (.ok evs) (.error e)).doc
        (processZoom doc q (.ok evs) (.error e)).queue now (.ok ())).doc.status =
      RecordingStatus.completed := by
  have hlen : 0 < (evs.filter isClickWithCoordinates).length :=
    List.length_pos.2 hcl
  refine ⟨?_, ?_, ?_, ?_, ?_, ?_⟩ <;>
    simp [processZoom, zoomChosenPath, hcl0, hlen, addNextJob, nextJobMap,
      processMerge]

/-- C4, witness: the fallback instantiated on a fresh recording with one
click event and a crashing zoom renderer, against an empty-events run. -/
theorem zoom_render_failure_falls_back_to_raw_video_witness :
    [clickEventC].filter isClickWithCoordinates ≠ [] ∧
    ([] : List DOMEvent).filter isClickWithCoordinates = [] ∧
    ((processZoom (uploadDoc "r1" none) [] (.ok [])
        (.ok ())).doc.zoomedVideoPath =
       some (getRecordingPaths (uploadDoc "r1" none).id).rawVideo ∧
     (processZoom (uploadDoc "r1" none) [] (.ok [clickEventC])
        (.error "zoom crashed")).error = none ∧
     (processZoom (uploadDoc "r1" none) [] (.ok [clickEventC])
        (.error "zoom crashed")).doc.status = (uploadDoc "r1" none).status ∧
     (processZoom (uploadDoc "r1" none) [] (.ok [clickEventC])
        (.error "zoom crashed")).doc.zoomedVideoPath =
       some (getRecordingPaths (uploadDoc "r1" none).id).rawVideo ∧
     (processZoom (uploadDoc "r1" none) [] (.ok [clickEventC])
        (.error "zoom crashed")).queue =
       queueAdd []
         { name := JobType.merge
           recordingId := (uploadDoc "r1" none).id
           targetLanguage := none
           jobId := stageJobId JobType.merge (uploadDoc "r1" none).id } ∧
     (processMerge (processZoom (uploadDoc "r1" none) [] (.ok [clickEventC])
          (.error "zoom crashed")).doc
        (processZoom (uploadDoc "r1" none) [] (.ok [clickEventC])
          (.error "zoom crashed")).queue 9 (.ok ())).doc.status =
       RecordingStatus.completed) :=
  ⟨by decide, by decide,
    zoom_render_failure_falls_back_to_raw_video (uploadDoc "r1" none) []
      [clickEventC] [] "zoom crashed" 9 (by decide) (by decide)⟩

/-- C5: the merge stage hands the mux collaborator the `zoomedVideoPath`
currently recorded on the document (falling back to the raw video when it is
unset), not the conventional zoomed-file location, whatever the mux outcome;
on success it sets status COMPLETED, step COMPLETED, `finalVideoPath` and
`processingCompletedAt`. -/
theorem merge_uses_recorded_zoomed_video_path (doc : RecordingDoc)
    (q : List QueueJob) (now : Nat) (mr : Except String Unit) :
    (processMerge doc q now mr).muxVideoInput =
      some (jsOrString doc.zoomedVideoPath (getRecordingPaths doc.id).rawVideo) ∧
    (processMerge doc q now mr).muxAudioInput =
      some (getRecordingPaths doc.id).voiceover ∧
    (processMerge doc q now (.ok ())).doc.status = RecordingStatus.completed ∧
    (processMerge doc q now (.ok ())).doc.currentStep =
      some ProcessingStep.completed ∧
    (processMerge doc q now (.ok ())).doc.finalVideoPath =
      some (getRecordingPaths doc.id).finalVideo ∧
    (processMerge doc q now (.ok ())).doc.processingCompletedAt = some now := by
  cases mr with
  | error e =>
      refine ⟨?_, ?_, ?_, ?_, ?_, ?_⟩ <;> simp [processMerge]
  | ok u =>
      refine ⟨?_, ?_, ?_, ?_, ?_, ?_⟩ <;> simp [processMerge]

/-- C6: for every stage reached through `addNextJob` the dedup key is the
deterministic `stage:recordingId` template, so a second submission with the
identical key while the first is pending is a no-op and exactly one job is
queued; the same holds for `addProcessingJob`; the AI-processing key instead
embeds the submission timestamp, so two submissions with different
timestamps both remain in the queue. -/
theorem stage_dedup_keys_deterministic_except_ai (q : List QueueJob)
    (t nt : JobType) (recordingId l1 l2 : String) (t1 t2 : Nat)
    (hnext : nextJobMap t = some nt)
    (h0 : ∀ k ∈ q, k.jobId ≠ stageJobId nt recordingId)
    (hid1 : ∀ k ∈ q, k.jobId ≠ aiJobId recordingId t1)
    (hid2 : ∀ k ∈ q, k.jobId ≠ aiJobId recordingId t2)
    (hts : aiJobId recordingId t1 ≠ aiJobId recordingId t2) :
    addNextJob (addNextJob q t recordingId) t recordingId =
      addNextJob q t recordingId ∧
    ((addNextJob q t recordingId).countP
      fun k => k.jobId == stageJobId nt recordingId) = 1 ∧
    addProcessingJob (addProcessingJob q recordingId) recordingId =
      addProcessingJob q recordingId ∧
    { name := JobType.aiProcess
      recordingId := recordingId
      targetLanguage := some l1
      jobId := aiJobId recordingId t1 } ∈
        addFinalProcessingJob (addFinalProcessingJob q recordingId l1 t1)
          recordingId l2 t2 ∧
    { name := JobType.aiProcess
      recordingId := recordingId
      targetLanguage := some l2
      jobId := aiJobId recordingId t2 } ∈
        addFinalProcessingJob (addFinalProcessingJob q recordingId l1 t1)
          recordingId l2 t2 := by
  refine ⟨?_, ?_, ?_, ?_, ?_⟩
  · unfold addNextJob
    rw [hnext]
    exact queueAdd_idem q _
  · have hAdd : addNextJob q t recordingId =
        queueAdd q
          { name := nt
            recordingId := recordingId
            targetLanguage := none
            jobId := stageJobId nt recordingId } := by
      unfold addNextJob
      rw [hnext]
    have hApp : queueAdd q
        { name := nt
          recordingId := recordingId
          targetLanguage := none
          jobId := stageJobId nt recordingId } =
        q ++ [{ name := nt
                recordingId := recordingId
                targetLanguage := none
                jobId := stageJobId nt recordingId }] := by
      refine queueAdd_of_forall_ne q _ ?_
      intro k hk
      simpa using h0 k hk
    rw [hAdd, hApp, List.countP_append]
    have hz : (q.countP fun k => k.jobId == stageJobId nt recordingId) = 0 := by
      rw [List.countP_eq_zero]
      intro k hk
      simpa using h0 k hk
    simp [hz]
  · exact queueAdd_idem q _
  · have e1 : addFinalProcessingJob q recordingId l1 t1 =
        q ++ [{ name := JobType.aiProcess
                recordingId := recordingId
                targetLanguage := some l1
                jobId := aiJobId recordingId t1 }] :=
      queueAdd_of_forall_ne q _ (by simpa using hid1)
    have e2 : addFinalProcessingJob (addFinalProcessingJob q recordingId l1 t1)
        recordingId l2 t2 =
        addFinalProcessingJob q recordingId l1 t1 ++
          [{ name := JobType.aiProcess
             recordingId := recordingId
             targetLanguage := some l2
             jobId := aiJobId recordingId t2 }] := by
      refine queueAdd_of_forall_ne _ _ ?_
      intro k hk
      rw [e1] at hk
      rcases List.mem_append.1 hk with hk | hk
      · simpa using hid2 k hk
      · rw [List.mem_singleton.1 hk]
        simpa using hts
    rw [e2, e1]
    simp
  · have e1 : addFinalProcessingJob q recordingId l1 t1 =
        q ++ [{ name := JobType.aiProcess
                recordingId := recordingId
                targetLanguage := some l1
                jobId := aiJobId recordingId t1 }] :=
      queueAdd_of_forall_ne q _ (by simpa using hid1)
    have e2 : addFinalProcessingJob (addFinalProcessingJob q recordingId l1 t1)
        recordingId l2 t2 =
        addFinalProcessingJob q recordingId l1 t1 ++
          [{ name := JobType.aiProcess
             recordingId := recordingId
             targetLanguage := some l2
             jobId := aiJobId recordingId t2 }] := by
      refine queueAdd_of_forall_ne _ _ ?_
      intro k hk
      rw [e1] at hk
      rcases List.mem_append.1 hk with hk | hk
      · simpa using hid2 k hk
      · rw [List.mem_singleton.1 hk]
        simpa using hts
    rw [e2]
    simp

/-- C6, witness: the dedup behaviour on an empty queue for the
extract-audio → transcribe successor and two AI submissions at timestamps
1 and 2. -/
theorem stage_dedup_keys_deterministic_except_ai_witness :
    nextJobMap JobType.extractAudio = some JobType.transcribe ∧
    (∀ k ∈ ([] : List QueueJob), k.jobId ≠ stageJobId JobType.transcribe "r1") ∧
    (∀ k ∈ ([] : List QueueJob), k.jobId ≠ aiJobId "r1" 1) ∧
    (∀ k ∈ ([] : List QueueJob), k.jobId ≠ aiJobId "r1" 2) ∧
    aiJobId "r1" 1 ≠ aiJobId "r1" 2 ∧
    (addNextJob (addNextJob [] JobType.extractAudio "r1") JobType.extractAudio
        "r1" = addNextJob [] JobType.extractAudio "r1" ∧
     ((addNextJob [] JobType.extractAudio "r1").countP
       fun k => k.jobId == stageJobId JobType.transcribe "r1") = 1 ∧
     addProcessingJob (addProcessingJob [] "r1") "r1" =
       addProcessingJob [] "r1" ∧
     { name := JobType.aiProcess
       recordingId := "r1"
       targetLanguage := some "en"
       jobId := aiJobId "r1" 1 } ∈
         addFinalProcessingJob (addFinalProcessingJob [] "r1" "en" 1)
           "r1" "fr" 2 ∧
     { name := JobType.aiProcess
       recordingId := "r1"
       targetLanguage := some "fr"
       jobId := aiJobId "r1" 2 } ∈
         addFinalProcessingJob (addFinalProcessingJob [] "r1" "en" 1)
           "r1" "fr" 2) :=
  ⟨rfl, by simp, by simp, by simp, by decide,
    stage_dedup_keys_deterministic_except_ai [] JobType.extractAudio
      JobType.transcribe "r1" "en" "fr" 1 2 rfl (by simp) (by simp) (by simp)
      (by decide)⟩

/-- C7: an explicit process request on a DRAFT_READY, COMPLETED or FAILED
recording sets status PROCESSING, step AI_PROCESSING, the requested target
language (default en), clears the error, and enqueues exactly one fresh
AI_PROCESS job carrying that language under a timestamped dedup key. -/
theorem process_request_restarts_pipeline_tail (doc : RecordingDoc)
    (q : List QueueJob) (language : Option String) (now : Nat)
    (_hs : doc.status = RecordingStatus.draftReady ∨
      doc.status = RecordingStatus.completed ∨
      doc.status = RecordingStatus.failed) :
    (processRecordingDoc doc language).status = RecordingStatus.processing ∧
    (processRecordingDoc doc language).currentStep =
      some ProcessingStep.aiProcessing ∧
    (processRecordingDoc doc language).targetLanguage = language.getD "en" ∧
    (processRecordingDoc doc language).errorMessage = none ∧
    requestState { doc := doc, queue := q } language now =
      { doc := processRecordingDoc doc language
        queue := queueAdd q
          { name := JobType.aiProcess
            recordingId := doc.id
            targetLanguage := some (language.getD "en")
            jobId := aiJobId doc.id now } } := by
  refine ⟨rfl, rfl, rfl, rfl, rfl⟩

/-- C7, witness: the request instantiated on a draft recording with target
language fr. -/
theorem process_request_restarts_pipeline_tail_witness :
    (draftDocC.status = RecordingStatus.draftReady ∨
      draftDocC.status = RecordingStatus.completed ∨
      draftDocC.status = RecordingStatus.failed) ∧
    ((processRecordingDoc draftDocC (some "fr")).status =
       RecordingStatus.processing ∧
     (processRecordingDoc draftDocC (some "fr")).currentStep =
       some ProcessingStep.aiProcessing ∧
     (processRecordingDoc draftDocC (some "fr")).targetLanguage =
       (some "fr").getD "en" ∧
     (processRecordingDoc draftDocC (some "fr")).errorMessage = none ∧
     requestState { doc := draftDocC, queue := [] } (some "fr") 5 =
       { doc := processRecordingDoc draftDocC (some "fr")
         queue := queueAdd []
           { name := JobType.aiProcess
             recordingId := draftDocC.id
             targetLanguage := some ((some "fr").getD "en")
             jobId := aiJobId draftDocC.id 5 } }) :=
  ⟨Or.inl rfl,
    process_request_restarts_pipeline_tail draftDocC [] (some "fr") 5
      (Or.inl rfl)⟩

/-- C8: tail re-processing — the process request followed by the AI, zoom and
merge handlers under arbitrary collaborator outcomes — never modifies
`transcriptPath`, `audioPath`, `transcript`, `filePath`, `eventsPath` or the
title; only AI-stage-and-later fields change. -/
theorem reprocessing_preserves_upstream_fields (s : PipelineState)
    (language : Option String) (n1 now : Nat) (o : Oracle) :
    (reprocessRun s language n1 o now).transcriptPath = s.doc.transcriptPath ∧
    (reprocessRun s language n1 o now).audioPath = s.doc.audioPath ∧
    (reprocessRun s language n1 o now).transcript = s.doc.transcript ∧
    (reprocessRun s language n1 o now).filePath = s.doc.filePath ∧
    (reprocessRun s language n1 o now).eventsPath = s.doc.eventsPath ∧
    (reprocessRun s language n1 o now).title = s.doc.title := by
  have h : upstreamFields (reprocessRun s language n1 o now) =
      upstreamFields s.doc := by
    simp only [reprocessRun]
    rw [upstream_processMerge, upstream_processZoom, upstream_processAI]
    exact upstream_processRecordingDoc s.doc language
  simp only [upstreamFields, Prod.mk.injEq] at h
  exact ⟨h.1, h.2.1, h.2.2.1, h.2.2.2.1, h.2.2.2.2.1, h.2.2.2.2.2⟩

/-- C9, counterexample: a rejected-input failure (HTTP 400, empty-transcript
detail) thrown on the first attempt is retried by the queue, contradicting
the claim that the core does not retry rejected-input failures. -/
theorem rejected_input_failure_is_retried :
    aiJobWillRetry
      (Except.error (AIFailureKind.badRequest "Transcript is empty")) 1 =
      true := by
  decide

/-- C9, amended: `processWithAI` distinguishes the failure kinds only in the
thrown message; the retry decision is identical for every failure kind —
retried after the first attempt, parked once the attempt ceiling of 2 is
reached — so rejected-input failures are retried exactly like unreachable
and timed-out ones. -/
theorem ai_failure_retry_policy_uniform (k k2 : AIFailureKind) (n : Nat) :
    aiJobWillRetry (Except.error k) n = aiJobWillRetry (Except.error k2) n ∧
    aiJobWillRetry (Except.error k) 1 = true ∧
    aiJobWillRetry (Except.error k) recordingQueueAttempts = false ∧
    processWithAI (Except.error AIFailureKind.connectionRefused) ≠
      processWithAI (Except.error AIFailureKind.timedOut) := by
  cases k <;> cases k2 <;>
    simp [aiJobWillRetry, processWithAI, willRetryAfterThrow,
      recordingQueueAttempts]

/-- C10: the process request performs the identical mutation and enqueue for
a recording in UPLOADED or PROCESSING state — the controller's status check
only logs a warning — so re-processing can be triggered while an earlier run
is still executing. -/
theorem process_request_ignores_current_status (doc : RecordingDoc)
    (q : List QueueJob) (language : Option String) (now : Nat)
    (_hs : doc.status = RecordingStatus.uploaded ∨
      doc.status = RecordingStatus.processing) :
    (processRecordingDoc doc language).status = RecordingStatus.processing ∧
    (processRecordingDoc doc language).currentStep =
      some ProcessingStep.aiProcessing ∧
    (processRecordingDoc doc language).errorMessage = none ∧
    requestState { doc := doc, queue := q } language now =
      { doc := processRecordingDoc doc language
        queue := queueAdd q
          { name := JobType.aiProcess
            recordingId := doc.id
            targetLanguage := some (language.getD "en")
            jobId := aiJobId doc.id now } } := by
  refine ⟨rfl, rfl, rfl, rfl⟩

/-- C10, witness: the request applied to a freshly uploaded (UPLOADED)
recording. -/
theorem process_request_ignores_current_status_witness :
    ((uploadDoc "r1" none).status = RecordingStatus.uploaded ∨
      (uploadDoc "r1" none).status = RecordingStatus.processing) ∧
    ((processRecordingDoc (uploadDoc "r1" none) none).status =
       RecordingStatus.processing ∧
     (processRecordingDoc (uploadDoc "r1" none) none).currentStep =
       some ProcessingStep.aiProcessing ∧
     (processRecordingDoc (uploadDoc "r1" none) none).errorMessage = none ∧
     requestState { doc := uploadDoc "r1" none, queue := [] } none 5 =
       { doc := processRecordingDoc (uploadDoc "r1" none) none
         queue := queueAdd []
           { name := JobType.aiProcess
             recordingId := (uploadDoc "r1" none).id
             targetLanguage := some (Option.getD none "en")
             jobId := aiJobId (uploadDoc "r1" none).id 5 } }) :=
  ⟨Or.inl rfl,
    process_request_ignores_current_status (uploadDoc "r1" none) [] none 5
      (Or.inl rfl)⟩

end Clueso
